import Mathlib

/-!
Shallow embedding of the safety-data ingestion pipeline and analytics engine
(`backend/app/services/ingestion.py`, `backend/app/services/analytics.py`).

Modelling conventions:
* timestamps are integers counted in minutes, so the late cutoff
  `now - timedelta(minutes=MAX_LATE_ARRIVAL_MINUTES)` is plain subtraction;
* Python floats are modelled by rationals, with explicit constructors for
  NaN, infinity and unparseable inputs (`float(x)` raising);
* the store and the equipment registry are collaborators: queries are passed
  in as data (`Except Unit rows`, a list of known equipment ids), and a
  boolean `insertOk` says whether bulk writes succeed;
* the per-instance mutable `self.stats` dict, the stored readings and the
  quality-metric log form an explicit `PipelineState` threaded through
  `ingest_batch`.
-/

namespace SafetySync

/-- Outcome of `float(reading["metric_value"])` in the validation stage:
a finite value, NaN, an infinity, or a raise (ValueError/TypeError). -/
inductive RawValue where
  | fin (q : ℚ)
  | nanVal
  | infVal
  | unparseable
deriving DecidableEq, Repr

/-- The `time` field of an incoming reading: a datetime object, an
ISO-8601 string that parses to the given instant, or a string on which
`datetime.fromisoformat` raises. -/
inductive TimeField where
  | dt (t : ℤ)
  | isoStr (t : ℤ)
  | badStr
deriving DecidableEq, Repr

/-- Timestamp extraction performed by `_validate_readings`:
`datetime.fromisoformat(...)` on strings, identity on datetime objects;
`none` models the ValueError on an unparseable string. -/
def parseTime : TimeField → Option ℤ
  | .dt t => some t
  | .isoStr t => some t
  | .badStr => none

/-- An incoming reading dictionary; `none` in a field models an absent key. -/
structure RawReading where
  equipment_id : Option String
  metric_name : Option String
  metric_value : Option RawValue
  time : Option TimeField
  metric_unit : Option String
  reading_status : Option String
deriving DecidableEq, Repr

/-- A validated, normalized reading as appended by `_validate_readings`. -/
structure Reading where
  time : ℤ
  equipment_id : String
  metric_name : String
  metric_value : ℚ
  metric_unit : Option String
  reading_status : String
deriving DecidableEq, Repr

/-- Per-metric reasonable ranges from `_is_value_reasonable`, with the
default `(-1e6, 1e6)` for metrics not in the table. -/
def metricRange (name : String) : ℚ × ℚ :=
  if name = "gas_concentration" then (-1/10, 10000)
  else if name = "temperature" then (-50, 200)
  else if name = "pressure" then (0, 1000)
  else if name = "humidity" then (0, 100)
  else if name = "battery_level" then (0, 100)
  else (-1000000, 1000000)

/-- `_is_value_reasonable`: `min_val <= value <= max_val and not isnan and
not isinf`.  NaN fails every comparison and infinities exceed the bounds,
so only finite in-range values pass. -/
def is_value_reasonable (name : String) : RawValue → Bool
  | .fin q => decide ((metricRange name).1 ≤ q) && decide (q ≤ (metricRange name).2)
  | _ => false

/-- One iteration of the `_validate_readings` loop: `none` means the record
is rejected (the `invalid` counter is incremented); `some` carries the
normalized record.  Checks in source order: required keys, `float(...)`,
timestamp parse, reasonable range, registry lookup. -/
def validateOne (registry : List String) (r : RawReading) : Option Reading :=
  match r.equipment_id, r.metric_name, r.metric_value, r.time with
  | some eid, some mname, some mval, some tf =>
    match mval with
    | .unparseable => none
    | v =>
      match parseTime tf with
      | none => none
      | some t =>
        if is_value_reasonable mname v then
          match v with
          | .fin q =>
            if registry.contains eid then
              some { time := t, equipment_id := eid, metric_name := mname,
                     metric_value := q, metric_unit := r.metric_unit,
                     reading_status := r.reading_status.getD "normal" }
            else none
          | _ => none
        else none
  | _, _, _, _ => none

/-- `_validate_readings` over a batch: the surviving normalized records in
order and the number of rejections (this call's contribution to
`self.stats["invalid"]`). -/
def validateBatch (registry : List String) : List RawReading → List Reading × ℕ
  | [] => ([], 0)
  | r :: rs =>
    let rest := validateBatch registry rs
    match validateOne registry r with
    | some v => (v :: rest.1, rest.2)
    | none => (rest.1, rest.2 + 1)

/-- Natural key used for deduplication and conflict-free insertion. -/
def natKey (r : Reading) : String × String × ℤ :=
  (r.equipment_id, r.metric_name, r.time)

/-- Scan of the batch keeping only records whose natural key has not been
seen earlier in the batch. -/
def dedupAux (seen : List (String × String × ℤ)) : List Reading → List Reading
  | [] => []
  | r :: rs =>
    if natKey r ∈ seen then dedupAux seen rs
    else r :: dedupAux (natKey r :: seen) rs

/-- `_deduplicate`: pandas `drop_duplicates(subset=natural key, keep="first")`,
keeping the first occurrence of each key in input order. -/
def dedup (l : List Reading) : List Reading := dedupAux [] l

/-- Configuration and collaborators of one `ingest_batch` call: the registry
(equipment ids that resolve), the clock, `MAX_LATE_ARRIVAL_MINUTES`, and
whether the store accepts writes. -/
structure Env where
  registry : List String
  now : ℤ
  maxLateArrivalMinutes : ℤ
  insertOk : Bool
deriving DecidableEq, Repr

/-- The mutable `self.stats` dictionary of `DataIngestionPipeline`. -/
structure Stats where
  total_processed : ℕ
  invalid : ℕ
  duplicates : ℕ
  late_arrivals : ℕ
deriving DecidableEq, Repr

/-- One `DataQualityMetric` row (the count columns written by
`_record_quality_metrics`). -/
structure QualityMetric where
  total_records_processed : ℕ
  invalid_records : ℕ
  duplicate_records : ℕ
  late_arriving_records : ℕ
deriving DecidableEq, Repr

/-- State carried across calls of one pipeline instance and its store:
`self.stats`, the persisted readings, and the quality-metric log. -/
structure PipelineState where
  stats : Stats
  store : List Reading
  qualityLog : List QualityMetric
deriving DecidableEq, Repr

/-- State of a freshly constructed pipeline over an empty store. -/
def initState : PipelineState :=
  { stats := ⟨0, 0, 0, 0⟩, store := [], qualityLog := [] }

/-- Return value of `ingest_batch`: the success dictionary with its counts,
or the `{"success": False, "error": ...}` dictionary of the except branch. -/
inductive IngestResult where
  | ok (total_received total_inserted invalid_count duplicate_count late_arrival_count : ℕ)
  | fail (total_received : ℕ)
deriving DecidableEq, Repr

/-- One row of the `INSERT ... ON CONFLICT DO NOTHING`: a no-op when the
store already holds the natural key. -/
def insertRow (store : List Reading) (r : Reading) : List Reading :=
  if store.any (fun x => natKey x = natKey r) then store else store ++ [r]

/-- `_bulk_insert`: all rows written through the conflict-free insert.
Chunking by `MAX_BATCH_SIZE` only groups the writes and does not change the
resulting store contents, so it is not represented. -/
def bulkInsert (store : List Reading) (rows : List Reading) : List Reading :=
  rows.foldl insertRow store

/-- On-time survivors of `_check_timeliness`: `r["time"] >= cutoff`. -/
def onTimeOf (env : Env) (l : List Reading) : List Reading :=
  l.filter (fun r => env.now - env.maxLateArrivalMinutes ≤ r.time)

/-- Late survivors of `_check_timeliness`: `r["time"] < cutoff`. -/
def lateOf (env : Env) (l : List Reading) : List Reading :=
  l.filter (fun r => r.time < env.now - env.maxLateArrivalMinutes)

/-- `ingest_batch`.  Stages in source order: validation, deduplication,
timeliness split, bulk insert of the on-time survivors only, quality
accounting.  The `self.stats` counters are incremented (never reset) before
the insert, so they survive an insert failure; on such a failure the
transaction is rolled back, no quality metric is written and the
`{"success": False}` dictionary is returned.  `_record_quality_metrics`
swallows its own store errors, so a metric row appears only when the store
is up. -/
def ingest_batch (env : Env) (st : PipelineState) (readings : List RawReading) :
    PipelineState × IngestResult :=
  let vres := validateBatch env.registry readings
  let stats1 : Stats :=
    { st.stats with
      total_processed := st.stats.total_processed + readings.length,
      invalid := st.stats.invalid + vres.2 }
  let unique := dedup vres.1
  let stats2 : Stats :=
    { stats1 with duplicates := stats1.duplicates + (vres.1.length - unique.length) }
  let on_time := onTimeOf env unique
  let late := lateOf env unique
  let stats3 : Stats :=
    { stats2 with late_arrivals := stats2.late_arrivals + late.length }
  if !on_time.isEmpty && !env.insertOk then
    ({ stats := stats3, store := st.store, qualityLog := st.qualityLog },
     .fail readings.length)
  else
    let store1 := bulkInsert st.store on_time
    let log1 :=
      if env.insertOk then
        st.qualityLog ++
          [⟨stats3.total_processed, stats3.invalid, stats3.duplicates, stats3.late_arrivals⟩]
      else st.qualityLog
    ({ stats := stats3, store := store1, qualityLog := log1 },
     .ok readings.length on_time.length stats3.invalid stats3.duplicates stats3.late_arrivals)

/-! ## Analytics engine (`backend/app/services/analytics.py`) -/

/-- `AlertSeverity` enumeration from the database models. -/
inductive AlertSeverity where
  | info
  | warning
  | critical
  | emergency
deriving DecidableEq, Repr

/-- The configurable alert thresholds read from `settings`
(`GAS_DETECTION_THRESHOLD`, `TEMPERATURE_THRESHOLD`, `PRESSURE_THRESHOLD`),
with the source defaults. -/
structure Config where
  gasDetectionThreshold : ℚ := 10
  temperatureThreshold : ℚ := 60
  pressureThreshold : ℚ := 150
deriving DecidableEq, Repr

/-- `_get_thresholds`: per-equipment-type threshold map (empty for types
without thresholds). -/
def get_thresholds (cfg : Config) (equipment_type : String) : List (String × ℚ) :=
  if equipment_type = "gas_detector" then
    [("gas_concentration", cfg.gasDetectionThreshold)]
  else if equipment_type = "temperature_sensor" then
    [("temperature", cfg.temperatureThreshold)]
  else if equipment_type = "pressure_sensor" then
    [("pressure", cfg.pressureThreshold)]
  else if equipment_type = "air_quality_monitor" then
    [("pm25", 35), ("pm10", 150), ("co2", 1000)]
  else []

/-- `_threshold_severity`: severity from the exceedance ratio
`value / threshold`, strict comparisons. -/
def threshold_severity (value threshold : ℚ) : AlertSeverity :=
  let ratio := value / threshold
  if ratio > 2 then .emergency
  else if ratio > 3/2 then .critical
  else if ratio > 6/5 then .warning
  else .info

/-- A `(time, metric_value, metric_unit)` row returned by the
`check_thresholds` store query (readings above the threshold, newest first,
at most 10 — properties of the store query, not re-checked here). -/
structure TRow where
  time : ℤ
  metric_value : ℚ
  metric_unit : Option String
deriving DecidableEq, Repr

/-- One violation dictionary built by `check_thresholds`. -/
structure Violation where
  time : ℤ
  metric_name : String
  metric_value : ℚ
  metric_unit : Option String
  threshold : ℚ
  severity : AlertSeverity
deriving DecidableEq, Repr

/-- The violation dictionary appended for one query row. -/
def mkViolation (metric_name : String) (threshold : ℚ) (row : TRow) : Violation :=
  { time := row.time, metric_name := metric_name, metric_value := row.metric_value,
    metric_unit := row.metric_unit, threshold := threshold,
    severity := threshold_severity row.metric_value threshold }

/-- The per-metric query loop of `check_thresholds`.  A store error while
querying any metric is an exception that escapes the loop (dropping any
violations already collected) to the outer handler. -/
def collectViolations (query : String → ℚ → Except Unit (List TRow)) :
    List (String × ℚ) → Except Unit (List Violation)
  | [] => Except.ok []
  | (m, th) :: rest =>
    match query m th with
    | Except.error e => Except.error e
    | Except.ok rows =>
      match collectViolations query rest with
      | Except.error e => Except.error e
      | Except.ok tail => Except.ok (rows.map (mkViolation m th) ++ tail)

/-- `check_thresholds`.  `lookup` is the equipment query: a store error, an
unknown id, or the equipment type.  Every exception (store failure in the
lookup or in a metric query) is caught and turned into the empty list, the
same value an unknown id or a violation-free scan returns. -/
def check_thresholds (cfg : Config) (lookup : Except Unit (Option String))
    (query : String → ℚ → Except Unit (List TRow)) : List Violation :=
  match lookup with
  | Except.error _ => []
  | Except.ok none => []
  | Except.ok (some etype) =>
    match collectViolations query (get_thresholds cfg etype) with
    | Except.error _ => []
    | Except.ok vs => vs

/-- A `(time, metric_value)` row of the `detect_anomalies` store query
(readings of the metric inside the lookback window, time ascending). -/
structure ARow where
  time : ℤ
  metric_value : ℚ
deriving DecidableEq, Repr

/-- One anomaly dictionary produced by `detect_anomalies`. -/
structure Anomaly where
  time : ℤ
  metric_value : ℚ
  anomaly_score : ℚ
  severity : AlertSeverity
deriving DecidableEq, Repr

/-- `_calculate_severity`: severity from the continuous outlier score
(more negative is more anomalous). -/
def calculate_severity (anomaly_score : ℚ) : AlertSeverity :=
  if anomaly_score < -(1/2) then .critical
  else if anomaly_score < -(3/10) then .warning
  else .info

/-- `detect_anomalies`.  `queryResult` is the windowed store query;
`detector` abstracts the rolling-feature construction and the
`IsolationForest` fit (an external, floating-point, randomized collaborator):
it returns the rows the model flags (`fit_predict == -1`) paired with their
`score_samples` scores.  Faithful to the source are the guards around it:
any store exception yields `[]`, fewer than 50 points yields `[]`, and each
flagged row becomes an anomaly dictionary via `_calculate_severity`. -/
def detect_anomalies (queryResult : Except Unit (List ARow))
    (detector : List ARow → List (ARow × ℚ)) : List Anomaly :=
  match queryResult with
  | Except.error _ => []
  | Except.ok rows =>
    if rows.length < 50 then []
    else
      (detector rows).map (fun p =>
        { time := p.1.time, metric_value := p.1.metric_value,
          anomaly_score := p.2, severity := calculate_severity p.2 })

/-- One hourly rollup bucket read by `analyze_trends`. -/
structure HBucket where
  time : ℤ
  avg_value : ℚ
  min_value : ℚ
  max_value : ℚ
  stddev_value : ℚ
deriving DecidableEq, Repr

/-- The success dictionary of `analyze_trends`. -/
structure TrendSummary where
  trend_direction : String
  trend_slope : ℚ
  average_value : ℚ
  recent_average : ℚ
  percent_change : ℚ
  volatility : ℚ
  min_value : ℚ
  max_value : ℚ
  data_points : ℕ
deriving DecidableEq, Repr

/-- Mean of a list of rationals (`Series.mean`); only applied to nonempty
lists behind the 24-bucket guard. -/
def qMean (l : List ℚ) : ℚ := l.sum / l.length

/-- Least-squares slope of `np.polyfit(arange(n), values, 1)` in exact
rational arithmetic. -/
def olsSlope (values : List ℚ) : ℚ :=
  let n : ℚ := values.length
  let xs := (List.range values.length).map (fun i => (i : ℚ))
  let sx := xs.sum
  let sy := values.sum
  let sxy := ((xs.zip values).map (fun p => p.1 * p.2)).sum
  let sxx := (xs.map (fun x => x * x)).sum
  (n * sxy - sx * sy) / (n * sxx - sx * sx)

/-- Fold minimum of a list (`Series.min`), 0 on the empty list. -/
def listMin (l : List ℚ) : ℚ := l.foldl min (l.headD 0)

/-- Fold maximum of a list (`Series.max`), 0 on the empty list. -/
def listMax (l : List ℚ) : ℚ := l.foldl max (l.headD 0)

/-- `analyze_trends`.  A store exception becomes `{"error": str(e)}`
(`Except.error` carrying the message); fewer than 24 hourly buckets becomes
the explicit `{"error": "Insufficient data for trend analysis"}`; otherwise
the trend statistics are computed over the bucket averages: OLS slope,
volatility `mean(stddev)/mean(avg)` (0 when the mean average is 0), recent
average over the last 24 buckets, percent change against the overall
average (0 when that is 0). -/
def analyze_trends (queryResult : Except String (List HBucket)) :
    Except String TrendSummary :=
  match queryResult with
  | Except.error e => Except.error e
  | Except.ok df =>
    if df.length < 24 then Except.error "Insufficient data for trend analysis"
    else
      let values := df.map (·.avg_value)
      let slope := olsSlope values
      let avgMean := qMean values
      let volatility :=
        if avgMean ≠ 0 then qMean (df.map (·.stddev_value)) / avgMean else 0
      let recent := qMean (values.drop (values.length - 24))
      let pct := if avgMean ≠ 0 then (recent - avgMean) / avgMean * 100 else 0
      Except.ok
        { trend_direction := if slope > 0 then "increasing" else "decreasing",
          trend_slope := slope, average_value := avgMean,
          recent_average := recent, percent_change := pct,
          volatility := volatility, min_value := listMin (df.map (·.min_value)),
          max_value := listMax (df.map (·.max_value)), data_points := df.length }

/-- The equipment facts `predict_maintenance` derives before scoring:
`days_since_calibration` (`none` when `last_calibration_date` is null). -/
structure EquipInfo where
  days_since_calibration : Option ℤ
deriving DecidableEq, Repr

/-- The success dictionary of `predict_maintenance`. -/
structure MaintenanceRisk where
  risk_score : ℕ
  risk_level : String
  recommendation : String
  days_since_calibration : Option ℤ
  recent_alerts : ℤ
  usage_intensity : String
deriving DecidableEq, Repr

/-- `predict_maintenance`.  `lookup` is the registry query (`none` for an
unknown id, mapped to the explicit `{"error": "Equipment not found"}`);
`recent_alerts` and `reading_count` are the 30-day store counts.  The score
is additive; the `days_since_calibration` term keeps Python's
`if days and days > 180` truthiness (0 is falsy). -/
def predict_maintenance (lookup : Option EquipInfo)
    (recent_alerts reading_count : ℤ) : Except String MaintenanceRisk :=
  match lookup with
  | none => Except.error "Equipment not found"
  | some eq =>
    let dsc := eq.days_since_calibration
    let calScore : ℕ :=
      match dsc with
      | some d => if d ≠ 0 ∧ 180 < d then 40 else 0
      | none => 0
    let alertScore : ℕ := if 10 < recent_alerts then 30 else 0
    let usageScore : ℕ := if 10000 < reading_count then 20 else 0
    let risk_score := calScore + alertScore + usageScore
    let levelRec : String × String :=
      if 70 < risk_score then ("high", "Schedule maintenance within 1 week")
      else if 40 < risk_score then ("medium", "Schedule maintenance within 1 month")
      else ("low", "Normal operations, routine checks")
    Except.ok
      { risk_score := risk_score, risk_level := levelRec.1,
        recommendation := levelRec.2, days_since_calibration := dsc,
        recent_alerts := recent_alerts,
        usage_intensity := if 10000 < reading_count then "high" else "normal" }

/-! ## Specification-worded predicates (for comparison with the source) -/

/-- Does `float(...)` yield a finite number? -/
def isFiniteVal : RawValue → Bool
  | .fin _ => true
  | _ => false

/-- Inclusive per-metric range check, as the specification words it. -/
def inRange (m : String) (q : ℚ) : Bool :=
  decide ((metricRange m).1 ≤ q) && decide (q ≤ (metricRange m).2)

/-- The four rejection criteria exactly as the specification lists them:
a required field is missing, the metric value is not a finite real, the
equipment id does not resolve in the registry, or the value lies outside
the per-metric inclusive range.  Written from the spec text, to be compared
with `validateOne` (which is written from the source). -/
def claimRejects (registry : List String) (r : RawReading) : Bool :=
  r.equipment_id.isNone || r.metric_name.isNone ||
  r.metric_value.isNone || r.time.isNone ||
  (match r.metric_value with
   | some v => !isFiniteVal v
   | none => false) ||
  (match r.equipment_id with
   | some eid => !registry.contains eid
   | none => false) ||
  (match r.metric_name, r.metric_value with
   | some m, some (.fin q) => !inRange m q
   | _, _ => false)

/-- The reading's `time` field is a string `datetime.fromisoformat` rejects
(the criterion the specification's validation list omits). -/
def hasUnparseableTime (r : RawReading) : Bool :=
  match r.time with
  | some tf => (parseTime tf).isNone
  | none => false

/-! ## Concrete inputs used by the examples in the claims -/

/-- A healthy environment: equipment `TEST-001` registered, clock at minute
10000, the default 60-minute late cutoff, store accepting writes. -/
def envT : Env := ⟨["TEST-001"], 10000, 60, true⟩

/-- A valid temperature reading stamped 120 minutes before `envT.now`
(2 hours old, hence late against the 60-minute cutoff). -/
def lateTempRaw : RawReading :=
  ⟨some "TEST-001", some "temperature", some (.fin 25), some (.dt 9880), none, none⟩

/-- A valid pressure reading stamped 1000 minutes before `envT.now` (late). -/
def latePressureRaw : RawReading :=
  ⟨some "TEST-001", some "pressure", some (.fin 30), some (.dt 9000), none, none⟩

/-- A reading for an equipment id absent from the registry. -/
def ghostRaw : RawReading :=
  ⟨some "GHOST", some "temperature", some (.fin 20), some (.dt 9990), none, none⟩

/-- A fully valid on-time temperature reading. -/
def okTempRaw : RawReading :=
  ⟨some "TEST-001", some "temperature", some (.fin 20), some (.dt 9990), none, none⟩

/-- A valid on-time reading used twice to form a natural-key duplicate. -/
def dupRaw : RawReading :=
  ⟨some "TEST-001", some "temperature", some (.fin 5), some (.dt 9990), none, none⟩

/-- The spec's range example: `temperature = 999999.0`. -/
def temp999999Raw : RawReading :=
  ⟨some "TEST-001", some "temperature", some (.fin 999999), some (.dt 9990), none, none⟩

/-- A reading whose `time` string does not parse as ISO-8601. -/
def badTimeRaw : RawReading :=
  ⟨some "TEST-001", some "temperature", some (.fin 20), some .badStr, none, none⟩

/-- The same environment as `envT` but with the store refusing writes. -/
def envNoStore : Env := ⟨["TEST-001"], 10000, 60, false⟩

/-- The spec's threshold example: a 25 ppm gas reading row. -/
def gasRow : TRow := ⟨9990, 25, some "ppm"⟩

/-- A store query returning exactly the 25 ppm row for every metric. -/
def gasQuery : String → ℚ → Except Unit (List TRow) := fun _ _ => Except.ok [gasRow]

/-- The normalized form of `dupRaw`. -/
def readA : Reading := ⟨9990, "TEST-001", "temperature", 5, none, "normal"⟩

/-- The maintenance-risk record of the spec's example (200 days since
calibration, 15 alerts, 500 readings). -/
def riskMedium : MaintenanceRisk :=
  ⟨70, "medium", "Schedule maintenance within 1 month", some 200, 15, "normal"⟩

/-! ## Supporting lemmas -/

lemma validateBatch_length (registry : List String) :
    ∀ rs : List RawReading,
      rs.length = (validateBatch registry rs).1.length + (validateBatch registry rs).2 := by
  intro rs
  induction rs with
  | nil => simp [validateBatch]
  | cons r rs ih =>
    cases h : validateOne registry r <;> simp [validateBatch, h] <;> omega

lemma dedupAux_sublist (l : List Reading) :
    ∀ seen, (dedupAux seen l).Sublist l := by
  induction l with
  | nil => intro seen; simp [dedupAux]
  | cons r rs ih =>
    intro seen
    simp only [dedupAux]
    by_cases h : natKey r ∈ seen
    · rw [if_pos h]; exact (ih seen).cons r
    · rw [if_neg h]; exact (ih (natKey r :: seen)).cons₂ r

lemma dedup_sublist (l : List Reading) : (dedup l).Sublist l :=
  dedupAux_sublist l []

lemma dedup_length_le (l : List Reading) : (dedup l).length ≤ l.length :=
  (dedup_sublist l).length_le

lemma mem_dedupAux_not_seen (l : List Reading) :
    ∀ seen (r : Reading), r ∈ dedupAux seen l → natKey r ∉ seen := by
  induction l with
  | nil => intro seen r h; simp [dedupAux] at h
  | cons x xs ih =>
    intro seen r h
    simp only [dedupAux] at h
    by_cases hx : natKey x ∈ seen
    · rw [if_pos hx] at h
      exact ih seen r h
    · rw [if_neg hx] at h
      rcases List.mem_cons.mp h with rfl | h2
      · exact hx
      · intro hc
        exact ih _ r h2 (List.mem_cons_of_mem _ hc)

lemma dedupAux_pairwise (l : List Reading) :
    ∀ seen, (dedupAux seen l).Pairwise (fun a b => natKey a ≠ natKey b) := by
  induction l with
  | nil => intro seen; simp [dedupAux]
  | cons x xs ih =>
    intro seen
    simp only [dedupAux]
    by_cases hx : natKey x ∈ seen
    · rw [if_pos hx]; exact ih seen
    · rw [if_neg hx]
      refine List.Pairwise.cons ?_ (ih _)
      intro b hb hc
      apply mem_dedupAux_not_seen xs _ b hb
      rw [← hc]
      exact List.mem_cons_self _ _

lemma dedupAux_covers (l : List Reading) :
    ∀ seen (r : Reading), r ∈ l →
      natKey r ∈ seen ∨ ∃ x ∈ dedupAux seen l, natKey x = natKey r := by
  induction l with
  | nil => intro seen r h; simp at h
  | cons y ys ih =>
    intro seen r h
    simp only [dedupAux]
    rcases List.mem_cons.mp h with rfl | h2
    · by_cases hy : natKey r ∈ seen
      · exact Or.inl hy
      · right
        rw [if_neg hy]
        exact ⟨r, List.mem_cons_self _ _, rfl⟩
    · by_cases hy : natKey y ∈ seen
      · rw [if_pos hy]
        exact ih seen r h2
      · rw [if_neg hy]
        rcases ih (natKey y :: seen) r h2 with hin | ⟨x, hx, he⟩
        · rcases List.mem_cons.mp hin with heq | hseen
          · right
            exact ⟨y, List.mem_cons_self _ _, heq.symm⟩
          · exact Or.inl hseen
        · right
          exact ⟨x, List.mem_cons_of_mem _ hx, he⟩

lemma dedupAux_find? (l : List Reading) :
    ∀ seen (r : Reading), r ∈ dedupAux seen l →
      l.find? (fun x => decide (natKey x = natKey r)) = some r := by
  induction l with
  | nil => intro seen r h; simp [dedupAux] at h
  | cons y ys ih =>
    intro seen r h
    simp only [dedupAux] at h
    by_cases hy : natKey y ∈ seen
    · rw [if_pos hy] at h
      have hr := mem_dedupAux_not_seen ys seen r h
      have hne : natKey y ≠ natKey r := fun hc => hr (hc ▸ hy)
      rw [List.find?_cons_of_neg, ih seen r h]
      simpa using hne
    · rw [if_neg hy] at h
      rcases List.mem_cons.mp h with rfl | h2
      · rw [List.find?_cons_of_pos]
        simp
      · have hr := mem_dedupAux_not_seen ys _ r h2
        have hne : natKey y ≠ natKey r := by
          intro hc
          apply hr
          rw [← hc]
          exact List.mem_cons_self _ _
        rw [List.find?_cons_of_neg, ih _ r h2]
        simpa using hne

lemma filter_length_split {α : Type} (p : α → Bool) (l : List α) :
    (l.filter p).length + (l.filter (fun x => !p x)).length = l.length := by
  induction l with
  | nil => rfl
  | cons r rs ih =>
    rw [List.filter_cons, List.filter_cons]
    cases hp : p r
    · simp only [hp, Bool.not_false, if_neg, if_pos, Bool.false_eq_true, if_false, if_true,
        List.length_cons]
      omega
    · simp only [hp, Bool.not_true, Bool.false_eq_true, if_false, if_true, List.length_cons]
      omega

lemma onTime_late_length (env : Env) (l : List Reading) :
    (onTimeOf env l).length + (lateOf env l).length = l.length := by
  have hcong : lateOf env l =
      l.filter (fun r => !(decide (env.now - env.maxLateArrivalMinutes ≤ r.time))) := by
    unfold lateOf
    apply List.filter_congr
    intro x _
    by_cases h : env.now - env.maxLateArrivalMinutes ≤ x.time
    · simp [h, not_lt.mpr h]
    · simp [h, not_le.mp h]
  rw [hcong]
  exact filter_length_split _ l

lemma ingest_batch_snd_ok (env : Env) (st : PipelineState) (rs : List RawReading)
    (hcond : (!(onTimeOf env (dedup (validateBatch env.registry rs).1)).isEmpty &&
      !env.insertOk) = false) :
    (ingest_batch env st rs).2 =
      .ok rs.length (onTimeOf env (dedup (validateBatch env.registry rs).1)).length
        (st.stats.invalid + (validateBatch env.registry rs).2)
        (st.stats.duplicates + ((validateBatch env.registry rs).1.length -
          (dedup (validateBatch env.registry rs).1).length))
        (st.stats.late_arrivals +
          (lateOf env (dedup (validateBatch env.registry rs).1)).length) := by
  simp [ingest_batch, hcond]

lemma ingest_batch_snd_fail (env : Env) (st : PipelineState) (rs : List RawReading)
    (hcond : (!(onTimeOf env (dedup (validateBatch env.registry rs).1)).isEmpty &&
      !env.insertOk) = true) :
    (ingest_batch env st rs).2 = .fail rs.length := by
  simp [ingest_batch, hcond]

lemma ingest_batch_log_ok (env : Env) (st : PipelineState) (rs : List RawReading)
    (hok : env.insertOk = true) :
    (ingest_batch env st rs).1.qualityLog =
      st.qualityLog ++
        [⟨st.stats.total_processed + rs.length,
          st.stats.invalid + (validateBatch env.registry rs).2,
          st.stats.duplicates + ((validateBatch env.registry rs).1.length -
            (dedup (validateBatch env.registry rs).1).length),
          st.stats.late_arrivals +
            (lateOf env (dedup (validateBatch env.registry rs).1)).length⟩] := by
  simp [ingest_batch, hok]

lemma collectViolations_severity (query : String → ℚ → Except Unit (List TRow)) :
    ∀ (ths : List (String × ℚ)) (vs : List Violation),
      collectViolations query ths = Except.ok vs →
      ∀ v ∈ vs, v.severity = threshold_severity v.metric_value v.threshold := by
  intro ths
  induction ths with
  | nil =>
    intro vs h v hv
    simp only [collectViolations] at h
    injection h with h
    subst h
    simp at hv
  | cons p rest ih =>
    obtain ⟨m, th⟩ := p
    intro vs h v hv
    simp only [collectViolations] at h
    cases hq : query m th with
    | error e => rw [hq] at h; cases h
    | ok rows =>
      rw [hq] at h
      cases hc : collectViolations query rest with
      | error e => rw [hc] at h; cases h
      | ok tail =>
        rw [hc] at h
        injection h with h
        subst h
        rcases List.mem_append.mp hv with hm | ht
        · rcases List.mem_map.mp hm with ⟨row, _, rfl⟩
          rfl
        · exact ih tail hc v ht

lemma check_thresholds_severity (cfg : Config) (lookup : Except Unit (Option String))
    (query : String → ℚ → Except Unit (List TRow)) :
    ∀ v ∈ check_thresholds cfg lookup query,
      v.severity = threshold_severity v.metric_value v.threshold := by
  intro v hv
  cases lookup with
  | error e => simp [check_thresholds] at hv
  | ok o =>
    cases o with
    | none => simp [check_thresholds] at hv
    | some etype =>
      simp only [check_thresholds] at hv
      cases hc : collectViolations query (get_thresholds cfg etype) with
      | error e => rw [hc] at hv; simp at hv
      | ok vs =>
        rw [hc] at hv
        exact collectViolations_severity query _ vs hc v hv

/-! ## Claims -/

/-- C1: evaluation at the failing input.  A batch holding one valid reading
stamped 120 minutes in the past (cutoff 60 minutes) is ingested on a fresh
pipeline: the call succeeds and reports `late_arrival_count = 1`, but the
store stays empty and `total_inserted = 0` — the late reading is not
written (only the on-time partition reaches `_bulk_insert`), and
`late_arrival_count ≤ total_inserted` fails. -/
theorem C1_late_reading_not_inserted :
    ingest_batch envT initState [lateTempRaw] =
      ({ stats := ⟨1, 0, 0, 1⟩, store := [], qualityLog := [⟨1, 0, 0, 1⟩] },
       IngestResult.ok 1 0 0 0 1) ∧
    ¬ ((1 : ℕ) ≤ 0) :=
  ⟨by decide, by decide⟩

/-- C2: counterexample.  One valid late reading on a fresh pipeline:
`total_received = 1` but `total_inserted + invalid_count + duplicate_count
= 0 + 0 + 0`, because the late reading is received yet neither inserted
nor counted invalid or duplicate. -/
theorem C2_counterexample :
    (ingest_batch envT initState [latePressureRaw]).2 = IngestResult.ok 1 0 0 0 1 ∧
    (1 : ℕ) ≠ 0 + 0 + 0 :=
  ⟨by decide, by decide⟩

/-- C2 (amended): on a pipeline instance whose counters are still zero
(first call), every successful `ingest_batch` satisfies
`total_received = total_inserted + invalid_count + duplicate_count +
late_arrival_count` — the late term is required since late survivors are
received but not inserted. -/
theorem C2_fresh_call_identity (env : Env) (st : PipelineState) (rs : List RawReading)
    (a b c d e : ℕ) (hi : st.stats.invalid = 0) (hd : st.stats.duplicates = 0)
    (hl : st.stats.late_arrivals = 0)
    (h : (ingest_batch env st rs).2 = IngestResult.ok a b c d e) :
    a = b + c + d + e := by
  cases hcond : (!(onTimeOf env (dedup (validateBatch env.registry rs).1)).isEmpty &&
      !env.insertOk) with
  | true =>
    rw [ingest_batch_snd_fail env st rs hcond] at h
    cases h
  | false =>
    rw [ingest_batch_snd_ok env st rs hcond] at h
    injection h with h1 h2 h3 h4 h5
    subst h1
    subst h2
    subst h3
    subst h4
    subst h5
    have l1 := validateBatch_length env.registry rs
    have l2 := dedup_length_le (validateBatch env.registry rs).1
    have l3 := onTime_late_length env (dedup (validateBatch env.registry rs).1)
    rw [hi, hd, hl]
    omega

/-- C2 (witness): the identity applied to a concrete two-reading batch
(one on-time, one late) on a fresh pipeline. -/
theorem C2_fresh_call_identity_witness :
    (ingest_batch envT initState [okTempRaw, latePressureRaw]).2 =
      IngestResult.ok 2 1 0 0 1 ∧
    (2 : ℕ) = 1 + 0 + 0 + 1 :=
  ⟨by decide,
   C2_fresh_call_identity envT initState [okTempRaw, latePressureRaw] 2 1 0 0 1
     rfl rfl rfl (by decide)⟩

/-- C3: counterexample.  Two successive calls on one instance: the first
batch holds one invalid reading (unknown equipment), the second one valid
reading.  The second call returns `invalid_count = 1` although its own
batch contains no invalid reading — the counters accumulate across calls
instead of resetting. -/
theorem C3_counterexample :
    (ingest_batch envT (ingest_batch envT initState [ghostRaw]).1 [okTempRaw]).2 =
      IngestResult.ok 1 1 1 0 0 ∧
    (validateBatch envT.registry [okTempRaw]).2 = 0 :=
  ⟨by decide, by decide⟩

/-- C3 (amended): on one pipeline instance the returned `invalid_count`,
`duplicate_count` and `late_arrival_count` of a successful call are the
instance's running totals — the counts carried in from earlier calls plus
this batch's contribution — and each call with a reachable store appends
exactly one QualityMetric record, even for an empty or all-invalid
batch. -/
theorem C3_cumulative_counts_one_metric (env : Env) (st : PipelineState)
    (rs : List RawReading) (a b c d e : ℕ) (hok : env.insertOk = true)
    (h : (ingest_batch env st rs).2 = IngestResult.ok a b c d e) :
    c = st.stats.invalid + (validateBatch env.registry rs).2 ∧
    d = st.stats.duplicates + ((validateBatch env.registry rs).1.length -
      (dedup (validateBatch env.registry rs).1).length) ∧
    e = st.stats.late_arrivals +
      (lateOf env (dedup (validateBatch env.registry rs).1)).length ∧
    (ingest_batch env st rs).1.qualityLog.length = st.qualityLog.length + 1 := by
  have hcond : (!(onTimeOf env (dedup (validateBatch env.registry rs).1)).isEmpty &&
      !env.insertOk) = false := by
    rw [hok]
    simp
  rw [ingest_batch_snd_ok env st rs hcond] at h
  injection h with h1 h2 h3 h4 h5
  refine ⟨h3.symm, h4.symm, h5.symm, ?_⟩
  rw [ingest_batch_log_ok env st rs hok]
  simp

/-- C3 (witness): the accumulation, instantiated on the two-call scenario of
the counterexample — the second call's `invalid_count` equals the carried-in
total plus this batch's zero rejections, and its quality log grows by one
record. -/
theorem C3_cumulative_counts_one_metric_witness :
    (1 : ℕ) = (ingest_batch envT initState [ghostRaw]).1.stats.invalid +
      (validateBatch envT.registry [okTempRaw]).2 ∧
    (ingest_batch envT (ingest_batch envT initState [ghostRaw]).1 [okTempRaw]).1.qualityLog.length =
      (ingest_batch envT initState [ghostRaw]).1.qualityLog.length + 1 := by
  have H := C3_cumulative_counts_one_metric envT (ingest_batch envT initState [ghostRaw]).1
    [okTempRaw] 1 1 1 0 0 rfl (by decide)
  exact ⟨H.1, H.2.2.2⟩

/-- C4: counterexample.  With the store unreachable, `check_thresholds`
returns the empty list — exactly the value a healthy scan with no
violations returns — so the infrastructure failure is not surfaced as an
explicit failure result distinct from a normal empty result. -/
theorem C4_counterexample :
    check_thresholds {} (Except.error ()) (fun _ _ => Except.error ()) = [] ∧
    check_thresholds {} (Except.ok (some "gas_detector")) (fun _ _ => Except.ok []) = [] :=
  ⟨by decide, by decide⟩

/-- C4 (amended): `ingest_batch` surfaces a store write failure as the
distinct `fail` result and `analyze_trends` surfaces a store failure as an
error value distinct from every success, and neither raises; but
`detect_anomalies` and `check_thresholds` swallow store failures and return
the empty sequence, indistinguishable from a successful scan with zero
findings. -/
theorem C4_store_failure_surfacing :
    (∀ (env : Env) (st : PipelineState) (rs : List RawReading),
        env.insertOk = false →
        onTimeOf env (dedup (validateBatch env.registry rs).1) ≠ [] →
        (ingest_batch env st rs).2 = IngestResult.fail rs.length) ∧
    (∀ n a b c d e : ℕ, IngestResult.fail n ≠ IngestResult.ok a b c d e) ∧
    (∀ e : String, analyze_trends (Except.error e) = Except.error e) ∧
    (∀ (e : String) (s : TrendSummary),
        (Except.error e : Except String TrendSummary) ≠ Except.ok s) ∧
    (∀ det, detect_anomalies (Except.error ()) det = []) ∧
    (∀ (cfg : Config) (query : String → ℚ → Except Unit (List TRow)),
        check_thresholds cfg (Except.error ()) query = []) := by
  refine ⟨?_, ?_, fun e => rfl, ?_, fun det => rfl, fun cfg query => rfl⟩
  · intro env st rs hok hne
    have hie : (onTimeOf env (dedup (validateBatch env.registry rs).1)).isEmpty = false := by
      cases hl : onTimeOf env (dedup (validateBatch env.registry rs).1) with
      | nil => exact absurd hl hne
      | cons x xs => rfl
    apply ingest_batch_snd_fail
    rw [hie, hok]
    rfl
  · intro n a b c d e h
    cases h
  · intro e s h
    cases h

/-- C4 (witness): the failure surfacing applied at concrete inputs — a
one-reading batch against a store that refuses writes yields the `fail`
result, and the error paths of the three analytics operations evaluated. -/
theorem C4_store_failure_surfacing_witness :
    (ingest_batch envNoStore initState [okTempRaw]).2 = IngestResult.fail 1 ∧
    analyze_trends (Except.error "store down") = Except.error "store down" ∧
    detect_anomalies (Except.error ()) (fun _ => []) = [] ∧
    check_thresholds {} (Except.error ()) gasQuery = [] :=
  ⟨C4_store_failure_surfacing.1 envNoStore initState [okTempRaw] rfl (by decide),
   C4_store_failure_surfacing.2.2.1 "store down",
   C4_store_failure_surfacing.2.2.2.2.1 _,
   C4_store_failure_surfacing.2.2.2.2.2 {} gasQuery⟩

/-- C5: counterexample.  `detect_anomalies` on 49 points (insufficient
data) returns `[]`, the same value as a successful run on 50 points whose
detector flags nothing — the insufficient-data outcome carries no marker
distinguishing it from a zero-findings success. -/
theorem C5_counterexample :
    detect_anomalies (Except.ok (List.replicate 49 ⟨0, 5⟩))
        (fun l => l.map (fun r => (r, -1))) = [] ∧
    detect_anomalies (Except.ok (List.replicate 50 ⟨0, 5⟩)) (fun _ => []) = [] ∧
    (List.replicate 49 (⟨0, 5⟩ : ARow)).length < 50 ∧
    ¬ (List.replicate 50 (⟨0, 5⟩ : ARow)).length < 50 :=
  ⟨by decide, by decide, by decide, by decide⟩

/-- C5 (amended): `analyze_trends` with fewer than 24 hourly buckets returns
the explicit insufficient-data error, distinct from every success value;
`detect_anomalies` with fewer than 50 points returns the plain empty
sequence, the same value as a zero-findings success. -/
theorem C5_insufficient_data_results :
    (∀ buckets : List HBucket, buckets.length < 24 →
        analyze_trends (Except.ok buckets) =
          Except.error "Insufficient data for trend analysis") ∧
    (∀ (msg : String) (s : TrendSummary),
        (Except.error msg : Except String TrendSummary) ≠ Except.ok s) ∧
    (∀ (rows : List ARow) det, rows.length < 50 →
        detect_anomalies (Except.ok rows) det = []) := by
  refine ⟨?_, ?_, ?_⟩
  · intro buckets h
    simp [analyze_trends, h]
  · intro msg s h
    cases h
  · intro rows det h
    simp [detect_anomalies, h]

/-- C5 (witness): the insufficient-data paths applied at concrete inputs —
an empty rollup result and a 49-point reading list. -/
theorem C5_insufficient_data_results_witness :
    analyze_trends (Except.ok []) = Except.error "Insufficient data for trend analysis" ∧
    detect_anomalies (Except.ok (List.replicate 49 ⟨0, 5⟩)) (fun _ => []) = [] :=
  ⟨C5_insufficient_data_results.1 [] (by decide),
   C5_insufficient_data_results.2.2 (List.replicate 49 ⟨0, 5⟩) (fun _ => []) (by decide)⟩

/-- C6: counterexample.  A reading with every required field present, a
finite in-range value and a registered equipment id, but whose `time`
string does not parse, is rejected by validation although none of the
claim's four criteria holds — the rejection conditions are not an `iff`
with the claimed list. -/
theorem C6_counterexample :
    validateOne ["TEST-001"] badTimeRaw = none ∧
    claimRejects ["TEST-001"] badTimeRaw = false :=
  ⟨by decide, by decide⟩

/-- C6 (amended): validation rejects a reading if and only if one of the
claim's four criteria holds — a required field missing, the metric value
not a finite real, the equipment id unresolved, or the value out of the
per-metric inclusive range — or, additionally, the `time` field is a
string that fails ISO-8601 parsing; and the spec's example holds: a
`temperature = 999999.0` reading is rejected with `invalid_count = 1` and
`total_inserted = 0`. -/
theorem C6_validation_rejection_iff :
    (∀ (registry : List String) (r : RawReading),
        validateOne registry r = none ↔
          (claimRejects registry r || hasUnparseableTime r) = true) ∧
    (ingest_batch envT initState [temp999999Raw]).2 = IngestResult.ok 1 0 1 0 0 := by
  refine ⟨?_, by decide⟩
  intro registry r
  obtain ⟨eid, mn, mv, t, mu, rst⟩ := r
  cases eid with
  | none => simp [validateOne, claimRejects]
  | some e =>
    cases mn with
    | none => simp [validateOne, claimRejects]
    | some m =>
      cases mv with
      | none => simp [validateOne, claimRejects]
      | some v =>
        cases t with
        | none => simp [validateOne, claimRejects]
        | some tf =>
          cases v with
          | unparseable =>
            simp [validateOne, claimRejects, isFiniteVal]
          | nanVal =>
            cases tf <;>
              simp [validateOne, claimRejects, hasUnparseableTime, parseTime,
                isFiniteVal, is_value_reasonable]
          | infVal =>
            cases tf <;>
              simp [validateOne, claimRejects, hasUnparseableTime, parseTime,
                isFiniteVal, is_value_reasonable]
          | fin q =>
            cases tf with
            | badStr =>
              simp [validateOne, claimRejects, hasUnparseableTime, parseTime, isFiniteVal]
            | dt time =>
              cases hrange : inRange m q with
              | true =>
                have hr : is_value_reasonable m (.fin q) = true := hrange
                cases hcont : registry.contains e with
                | true =>
                  simp [validateOne, claimRejects, hasUnparseableTime, parseTime,
                    isFiniteVal, hr, hrange, hcont]
                | false =>
                  simp [validateOne, claimRejects, hasUnparseableTime, parseTime,
                    isFiniteVal, hr, hrange, hcont]
              | false =>
                have hr : is_value_reasonable m (.fin q) = false := hrange
                simp [validateOne, claimRejects, hasUnparseableTime, parseTime,
                  isFiniteVal, hr, hrange]
            | isoStr time =>
              cases hrange : inRange m q with
              | true =>
                have hr : is_value_reasonable m (.fin q) = true := hrange
                cases hcont : registry.contains e with
                | true =>
                  simp [validateOne, claimRejects, hasUnparseableTime, parseTime,
                    isFiniteVal, hr, hrange, hcont]
                | false =>
                  simp [validateOne, claimRejects, hasUnparseableTime, parseTime,
                    isFiniteVal, hr, hrange, hcont]
              | false =>
                have hr : is_value_reasonable m (.fin q) = false := hrange
                simp [validateOne, claimRejects, hasUnparseableTime, parseTime,
                  isFiniteVal, hr, hrange]

/-- C6 (witness): the equivalence applied to a concrete rejected reading
(unknown equipment id), in both directions. -/
theorem C6_validation_rejection_iff_witness :
    validateOne ["TEST-001"] ghostRaw = none ∧
    (claimRejects ["TEST-001"] ghostRaw || hasUnparseableTime ghostRaw) = true :=
  ⟨(C6_validation_rejection_iff.1 ["TEST-001"] ghostRaw).mpr (by decide),
   (C6_validation_rejection_iff.1 ["TEST-001"] ghostRaw).mp (by decide)⟩

/-- C7: every violation reported by `check_thresholds` carries the severity
computed by `_threshold_severity` from its own value and threshold; the
mapping follows the strict ratio cuts (`>2` emergency, `>1.5` critical,
`>1.2` warning, else info); and the spec's example holds: 25 ppm against
threshold 10 (ratio 2.5) is emergency. -/
theorem C7_severity_by_ratio :
    (∀ (cfg : Config) (lookup : Except Unit (Option String))
        (query : String → ℚ → Except Unit (List TRow)) (v : Violation),
        v ∈ check_thresholds cfg lookup query →
        v.severity = threshold_severity v.metric_value v.threshold) ∧
    (∀ value threshold : ℚ,
        (2 < value / threshold → threshold_severity value threshold = .emergency) ∧
        (value / threshold ≤ 2 → 3/2 < value / threshold →
          threshold_severity value threshold = .critical) ∧
        (value / threshold ≤ 3/2 → 6/5 < value / threshold →
          threshold_severity value threshold = .warning) ∧
        (value / threshold ≤ 6/5 → threshold_severity value threshold = .info)) ∧
    threshold_severity 25 10 = .emergency := by
  refine ⟨check_thresholds_severity, ?_, by norm_num [threshold_severity]⟩
  intro value threshold
  refine ⟨?_, ?_, ?_, ?_⟩
  · intro h
    simp [threshold_severity, gt_iff_lt, h]
  · intro h1 h2
    simp [threshold_severity, gt_iff_lt, not_lt.mpr h1, h2]
  · intro h1 h2
    have g2 : ¬ 2 < value / threshold := not_lt.mpr (h1.trans (by norm_num))
    simp [threshold_severity, gt_iff_lt, g2, not_lt.mpr h1, h2]
  · intro h1
    have g2 : ¬ 2 < value / threshold := not_lt.mpr (h1.trans (by norm_num))
    have g32 : ¬ 3/2 < value / threshold := not_lt.mpr (h1.trans (by norm_num))
    simp [threshold_severity, gt_iff_lt, g2, g32, not_lt.mpr h1]

/-- C7 (witness): the membership property applied to the violation built
from the 25 ppm gas reading against the gas-detector threshold 10. -/
theorem C7_severity_by_ratio_witness :
    (mkViolation "gas_concentration" 10 gasRow).severity =
      threshold_severity (mkViolation "gas_concentration" 10 gasRow).metric_value
        (mkViolation "gas_concentration" 10 gasRow).threshold ∧
    threshold_severity 25 10 = AlertSeverity.emergency := by
  have hm : check_thresholds {} (Except.ok (some "gas_detector")) gasQuery =
      [mkViolation "gas_concentration" 10 gasRow] := rfl
  exact ⟨C7_severity_by_ratio.1 {} (Except.ok (some "gas_detector")) gasQuery
      (mkViolation "gas_concentration" 10 gasRow) (hm ▸ List.mem_singleton_self _),
    C7_severity_by_ratio.2.2⟩

/-- C8: for every known equipment, the returned risk score is the additive
sum (+40 when days since calibration exceed 180, +30 when the 30-day alert
count exceeds 10, +20 when the 30-day reading count exceeds 10000), the
risk level follows the strict cuts (>70 high, >40 medium, else low), and
the spec's example holds: 200 days, 15 alerts, 500 readings gives score 70
and level "medium". -/
theorem C8_risk_score_additive (dsc : Option ℤ) (alerts readings : ℤ)
    (r : MaintenanceRisk)
    (h : predict_maintenance (some ⟨dsc⟩) alerts readings = Except.ok r) :
    (r.risk_score =
      (match dsc with
       | some d => if 180 < d then 40 else 0
       | none => 0) +
      (if 10 < alerts then 30 else 0) + (if 10000 < readings then 20 else 0)) ∧
    (r.risk_level = if 70 < r.risk_score then "high"
      else if 40 < r.risk_score then "medium" else "low") ∧
    predict_maintenance (some ⟨some 200⟩) 15 500 = Except.ok riskMedium := by
  simp only [predict_maintenance] at h
  injection h with h
  subst h
  refine ⟨?_, ?_, by rfl⟩
  · cases dsc with
    | none => rfl
    | some d =>
      by_cases h180 : 180 < d
      · have hne : d ≠ 0 := by omega
        simp [h180, hne]
      · simp [h180]
  · by_cases h70 : 70 < (match dsc with
        | some d => if d ≠ 0 ∧ 180 < d then (40 : ℕ) else 0
        | none => 0) + (if 10 < alerts then 30 else 0) +
        (if 10000 < readings then 20 else 0)
    · simp [h70]
    · by_cases h40 : 40 < (match dsc with
          | some d => if d ≠ 0 ∧ 180 < d then (40 : ℕ) else 0
          | none => 0) + (if 10 < alerts then 30 else 0) +
          (if 10000 < readings then 20 else 0)
      · simp [h70, h40]
      · simp [h70, h40]

/-- C8 (witness): the scoring applied at the spec's example inputs. -/
theorem C8_risk_score_additive_witness :
    (riskMedium.risk_score =
      (match (some 200 : Option ℤ) with
       | some d => if 180 < d then 40 else 0
       | none => 0) +
      (if (10 : ℤ) < 15 then 30 else 0) + (if (10000 : ℤ) < 500 then 20 else 0)) ∧
    (riskMedium.risk_level = if 70 < riskMedium.risk_score then "high"
      else if 40 < riskMedium.risk_score then "medium" else "low") :=
  ⟨(C8_risk_score_additive (some 200) 15 500 riskMedium rfl).1,
   (C8_risk_score_additive (some 200) 15 500 riskMedium rfl).2.1⟩

/-- C9: deduplication keeps an order-preserving subselection of the
validated batch in which no two records share the natural key, every input
key is represented, and each survivor is exactly the first occurrence of
its key in input order; and the spec's example holds: a batch of two
readings identical in the natural key yields `duplicate_count = 1` and
`total_inserted = 1`. -/
theorem C9_dedup_first_occurrence :
    (∀ l : List Reading, (dedup l).Sublist l) ∧
    (∀ l : List Reading, (dedup l).Pairwise (fun a b => natKey a ≠ natKey b)) ∧
    (∀ (l : List Reading) (r : Reading), r ∈ l → ∃ x ∈ dedup l, natKey x = natKey r) ∧
    (∀ (l : List Reading) (r : Reading), r ∈ dedup l →
        l.find? (fun x => decide (natKey x = natKey r)) = some r) ∧
    (ingest_batch envT initState [dupRaw, dupRaw]).2 = IngestResult.ok 2 1 0 1 0 := by
  refine ⟨dedup_sublist, fun l => dedupAux_pairwise l [], ?_,
    fun l r h => dedupAux_find? l [] r h, by decide⟩
  intro l r h
  rcases dedupAux_covers l [] r h with hin | hx
  · simp at hin
  · exact hx

/-- C9 (witness): the key coverage and first-occurrence properties applied
to the concrete duplicated batch. -/
theorem C9_dedup_first_occurrence_witness :
    (∃ x ∈ dedup [readA, readA], natKey x = natKey readA) ∧
    [readA, readA].find? (fun x => decide (natKey x = natKey readA)) = some readA :=
  ⟨C9_dedup_first_occurrence.2.2.1 [readA, readA] readA (by decide),
   C9_dedup_first_occurrence.2.2.2.1 [readA, readA] readA (by decide)⟩

/-- C10: a reading whose `time` field is a string that does not parse as an
ISO-8601 timestamp is rejected by validation (whatever its other fields),
and at the concrete bad-time reading the batch still succeeds — the reading
is counted invalid, excluded, and nothing is written to the store. -/
theorem C10_unparseable_timestamp_invalid (registry : List String) (r : RawReading)
    (tf : TimeField) (ht : r.time = some tf) (hp : parseTime tf = none) :
    validateOne registry r = none ∧
    (ingest_batch envT initState [badTimeRaw]).2 = IngestResult.ok 1 0 1 0 0 ∧
    (ingest_batch envT initState [badTimeRaw]).1.store = [] := by
  refine ⟨?_, by decide, by decide⟩
  obtain ⟨eid, mn, mv, t, mu, rst⟩ := r
  change t = some tf at ht
  subst ht
  cases eid with
  | none => rfl
  | some e =>
    cases mn with
    | none => rfl
    | some m =>
      cases mv with
      | none => rfl
      | some v =>
        cases v <;> simp [validateOne, hp]

/-- C10 (witness): the rejection applied at the concrete bad-time reading. -/
theorem C10_unparseable_timestamp_invalid_witness :
    validateOne ["TEST-001"] badTimeRaw = none ∧
    (ingest_batch envT initState [badTimeRaw]).2 = IngestResult.ok 1 0 1 0 0 :=
  ⟨(C10_unparseable_timestamp_invalid ["TEST-001"] badTimeRaw .badStr rfl rfl).1,
   (C10_unparseable_timestamp_invalid ["TEST-001"] badTimeRaw .badStr rfl rfl).2.1⟩

end SafetySync
